import Mathlib

/-!
# Verification of the RefOnRecord database layer

Shallow embedding of the repository `Sillah-Babar/RefOnRecord`:
  * `src/database/models.py` — SQLAlchemy table declarations (columns,
    defaults, check constraints, unique constraints, cascade foreign keys),
  * `src/database/setup_database.py` — drop-and-recreate schema reset,
  * `src/database/populate_database.py` — staged sample-data population.

Timestamps (`DateTime`) are modelled as integer seconds; `datetime.utcnow()`
becomes an explicit `now : Int` parameter, and `timedelta(days=n)` becomes
`days n` and so on.  Calendar dates (`Date`) are modelled as `Nat` in the
order-preserving encoding `y * 10000 + m * 100 + d`.  The random tokens
produced by `secrets.token_urlsafe(32)` are modelled as an explicit stream
`tok : Nat → String`, consumed in program order.
-/

set_option maxRecDepth 8192

namespace RefOnRecord

/-- `datetime.datetime` values, as integer seconds relative to an arbitrary
epoch. -/
abbrev DateTime := Int

/-- `datetime.date` values, encoded as `y * 10000 + m * 100 + d`, an
order-preserving encoding of calendar dates. -/
abbrev Date := Nat

/-- `datetime.date(y, m, d)` in the `Date` encoding. -/
def pydate (y m d : Nat) : Date := y * 10000 + m * 100 + d

/-- `timedelta(days = n)` in seconds. -/
def days (n : Int) : Int := n * 86400

/-- `timedelta(hours = n)` in seconds. -/
def hours (n : Int) : Int := n * 3600

/-- `timedelta(minutes = n)` in seconds. -/
def minutes (n : Int) : Int := n * 60

/-- `hash_password` from `populate_database.py`.  The SHA-256 hex digest is
modelled abstractly by an injective tagging of the password; no claim depends
on the digest value itself. -/
def hash_password (password : String) : String :=
  "sha256:" ++ password

/-! ## Row types (models.py)

One structure per `Base` subclass; fields keep the source column names.
Nullable columns are `Option`, `DateTime` columns are `Int`, `Date` columns
are `Nat`, integer primary and foreign keys are `Nat`. -/

/-- Table `user` (class `User`). -/
structure User where
  user_id : Nat
  email : String
  username : String
  password_hash : String
  phone_number : Option String
  tier : String
  created_at : DateTime
deriving Repr, DecidableEq

/-- Table `resume_project` (class `ResumeProject`). -/
structure ResumeProject where
  project_id : Nat
  user_id : Nat
  project_name : String
  template_style : String
  phone_number : Option String
  linkedin_url : Option String
  github_url : Option String
  personal_website : Option String
  current_company : Option String
  is_employed : Bool
  education_details : Option String
  created_at : DateTime
  updated_at : DateTime
deriving Repr, DecidableEq

/-- Table `experience` (class `Experience`). -/
structure Experience where
  experience_id : Nat
  project_id : Nat
  company_name : String
  position_title : String
  start_date : Date
  end_date : Option Date
  description : String
  verification_status : String
  created_at : DateTime
  updated_at : DateTime
deriving Repr, DecidableEq

/-- Table `verification_request` (class `VerificationRequest`). -/
structure VerificationRequest where
  request_id : Nat
  experience_id : Nat
  verifier_name : String
  verifier_position : String
  verifier_email : String
  verification_token : String
  status : String
  verifier_comment : Option String
  requested_at : DateTime
  responded_at : Option DateTime
  expires_at : DateTime
deriving Repr, DecidableEq

/-- Table `share_link` (class `ShareLink`). -/
structure ShareLink where
  share_id : Nat
  project_id : Nat
  share_token : String
  recipient_email : Option String
  access_type : String
  email_subject : Option String
  email_message : Option String
  view_count : Nat
  created_at : DateTime
  expires_at : Option DateTime
deriving Repr, DecidableEq

/-- Table `session` (class `Session`). -/
structure Session where
  session_id : Nat
  user_id : Nat
  token : String
  created_at : DateTime
  expires_at : DateTime
deriving Repr, DecidableEq

/-- Table `template` (class `Template`). -/
structure Template where
  template_id : Nat
  template_name : String
  s3_path : String
  created_at : DateTime
deriving Repr, DecidableEq

/-! ## Check constraints (models.py `__table_args__`) -/

/-- `CheckConstraint(tier.in_(['normal', 'premium']), name='check_user_tier')`. -/
def tierValues : List String := ["normal", "premium"]

/-- `CheckConstraint(template_style.in_(['classic', 'modern', 'minimal']),
name='check_template_style')`. -/
def templateStyleValues : List String := ["classic", "modern", "minimal"]

/-- `CheckConstraint(verification_status.in_(['not_requested', 'pending',
'verified', 'rejected']), name='check_verification_status')`. -/
def verificationStatusValues : List String :=
  ["not_requested", "pending", "verified", "rejected"]

/-- `CheckConstraint(status.in_(['pending', 'verified', 'rejected',
'expired']), name='check_request_status')`. -/
def requestStatusValues : List String :=
  ["pending", "verified", "rejected", "expired"]

/-- `CheckConstraint(access_type.in_(['view', 'edit']),
name='check_access_type')`. -/
def accessTypeValues : List String := ["view", "edit"]

/-- The `check_user_tier` constraint on a `user` row. -/
def check_user_tier (u : User) : Bool := tierValues.contains u.tier

/-- The `check_template_style` constraint on a `resume_project` row. -/
def check_template_style (p : ResumeProject) : Bool :=
  templateStyleValues.contains p.template_style

/-- The `check_verification_status` constraint on an `experience` row. -/
def check_verification_status (e : Experience) : Bool :=
  verificationStatusValues.contains e.verification_status

/-- The `check_date_range` constraint on an `experience` row:
`(end_date IS NULL) OR (end_date >= start_date)`. -/
def check_date_range (e : Experience) : Bool :=
  match e.end_date with
  | none => true
  | some d => e.start_date ≤ d

/-- The `check_request_status` constraint on a `verification_request` row. -/
def check_request_status (v : VerificationRequest) : Bool :=
  requestStatusValues.contains v.status

/-- The `check_access_type` constraint on a `share_link` row. -/
def check_access_type (s : ShareLink) : Bool :=
  accessTypeValues.contains s.access_type

/-! ## Column defaults for the enumerated columns (models.py) -/

/-- `tier = Column(..., default='normal')`. -/
def tierDefault : String := "normal"

/-- `template_style = Column(..., default='classic')`. -/
def templateStyleDefault : String := "classic"

/-- `verification_status = Column(..., default='not_requested')`. -/
def verificationStatusDefault : String := "not_requested"

/-- `status = Column(..., default='pending')`. -/
def requestStatusDefault : String := "pending"

/-- `access_type = Column(..., default='view')`. -/
def accessTypeDefault : String := "view"

/-! ## Database contents

`DB` is the contents of the six tables that `populate_database.py` touches;
the standalone `template` table is carried separately by the schema-level
state used for the setup script. -/

/-- The rows of the six related tables. -/
structure DB where
  users : List User
  resume_projects : List ResumeProject
  experiences : List Experience
  verification_requests : List VerificationRequest
  share_links : List ShareLink
  sessions : List Session
deriving Repr, DecidableEq

/-- The empty contents, as left behind by `setup_database.py`. -/
def emptyDB : DB :=
  { users := [], resume_projects := [], experiences := [],
    verification_requests := [], share_links := [], sessions := [] }

/-- Autoincrement primary-key assignment: one more than the largest key in
use (1 on an empty table). -/
def nextId (ids : List Nat) : Nat := ids.foldr max 0 + 1

/-! ## Inserts

Each insert enforces exactly the declared schema rules for its table:
check constraints, `unique=True` columns, and foreign-key existence of the
parent row.  A failed insert returns `Except.error` and, as in a rolled-back
SQL statement, contributes nothing; the primary key is assigned by
autoincrement and returned alongside the new contents. -/

/-- Insert into `user`: enforces `check_user_tier` and uniqueness of
`email` and `username`.  `r.user_id` is ignored and reassigned. -/
def insertUser (db : DB) (r : User) : Except String (DB × Nat) :=
  if check_user_tier r then
    if db.users.any (fun u => u.email = r.email) then
      .error "UNIQUE constraint failed: user.email"
    else if db.users.any (fun u => u.username = r.username) then
      .error "UNIQUE constraint failed: user.username"
    else
      let uid := nextId (db.users.map (fun u => u.user_id))
      .ok ({ db with users := db.users ++ [{ r with user_id := uid }] }, uid)
  else .error "CHECK constraint failed: check_user_tier"

/-- Insert into `resume_project`: enforces `check_template_style` and the
cascade foreign key `user_id → user.user_id`. -/
def insertResumeProject (db : DB) (r : ResumeProject) :
    Except String (DB × Nat) :=
  if check_template_style r then
    if db.users.any (fun u => u.user_id = r.user_id) then
      let pid := nextId (db.resume_projects.map (fun p => p.project_id))
      .ok ({ db with
              resume_projects :=
                db.resume_projects ++ [{ r with project_id := pid }] }, pid)
    else .error "FOREIGN KEY constraint failed: resume_project.user_id"
  else .error "CHECK constraint failed: check_template_style"

/-- Insert into `experience`: enforces `check_verification_status`,
`check_date_range` and the cascade foreign key
`project_id → resume_project.project_id`. -/
def insertExperience (db : DB) (r : Experience) : Except String (DB × Nat) :=
  if check_verification_status r then
    if check_date_range r then
      if db.resume_projects.any (fun p => p.project_id = r.project_id) then
        let eid := nextId (db.experiences.map (fun e => e.experience_id))
        .ok ({ db with
                experiences :=
                  db.experiences ++ [{ r with experience_id := eid }] }, eid)
      else .error "FOREIGN KEY constraint failed: experience.project_id"
    else .error "CHECK constraint failed: check_date_range"
  else .error "CHECK constraint failed: check_verification_status"

/-- Insert into `verification_request`: enforces `check_request_status`,
uniqueness of `verification_token` and the cascade foreign key
`experience_id → experience.experience_id`. -/
def insertVerificationRequest (db : DB) (r : VerificationRequest) :
    Except String (DB × Nat) :=
  if check_request_status r then
    if db.verification_requests.any
        (fun v => v.verification_token = r.verification_token) then
      .error "UNIQUE constraint failed: verification_request.verification_token"
    else if db.experiences.any
        (fun e => e.experience_id = r.experience_id) then
      let rid :=
        nextId (db.verification_requests.map (fun v => v.request_id))
      .ok ({ db with
              verification_requests :=
                db.verification_requests ++
                  [{ r with request_id := rid }] }, rid)
    else .error "FOREIGN KEY constraint failed: verification_request.experience_id"
  else .error "CHECK constraint failed: check_request_status"

/-- Insert into `share_link`: enforces `check_access_type`, uniqueness of
`share_token` and the cascade foreign key
`project_id → resume_project.project_id`. -/
def insertShareLink (db : DB) (r : ShareLink) : Except String (DB × Nat) :=
  if check_access_type r then
    if db.share_links.any (fun s => s.share_token = r.share_token) then
      .error "UNIQUE constraint failed: share_link.share_token"
    else if db.resume_projects.any
        (fun p => p.project_id = r.project_id) then
      let sid := nextId (db.share_links.map (fun s => s.share_id))
      .ok ({ db with
              share_links :=
                db.share_links ++ [{ r with share_id := sid }] }, sid)
    else .error "FOREIGN KEY constraint failed: share_link.project_id"
  else .error "CHECK constraint failed: check_access_type"

/-- Insert into `session`: enforces uniqueness of `token` and the cascade
foreign key `user_id → user.user_id`. -/
def insertSession (db : DB) (r : Session) : Except String (DB × Nat) :=
  if db.sessions.any (fun s => s.token = r.token) then
    .error "UNIQUE constraint failed: session.token"
  else if db.users.any (fun u => u.user_id = r.user_id) then
    let sid := nextId (db.sessions.map (fun s => s.session_id))
    .ok ({ db with
            sessions := db.sessions ++ [{ r with session_id := sid }] }, sid)
  else .error "FOREIGN KEY constraint failed: session.user_id"

/-- A failed statement inside a transaction is rolled back, leaving the
contents unchanged; a successful one commits the new contents. -/
def commitInsertExperience (db : DB) (r : Experience) : DB :=
  match insertExperience db r with
  | .ok (db1, _) => db1
  | .error _ => db

/-- As `commitInsertExperience`, for the `user` table. -/
def commitInsertUser (db : DB) (r : User) : DB :=
  match insertUser db r with
  | .ok (db1, _) => db1
  | .error _ => db

/-- UPDATE of `experience.start_date` and `experience.end_date` on the row
with key `eid`; the engine re-checks `check_date_range` (and the unchanged
`check_verification_status`) on the updated row and rejects the statement if
it fails. -/
def updateExperienceDates (db : DB) (eid : Nat) (s : Date)
    (e : Option Date) : Except String DB :=
  let upd := db.experiences.map (fun r =>
    if r.experience_id = eid then { r with start_date := s, end_date := e }
    else r)
  if upd.all (fun r => check_date_range r) then
    .ok { db with experiences := upd }
  else .error "CHECK constraint failed: check_date_range"

/-- UPDATE of `user.tier` on the row with key `uid`; the engine re-checks
`check_user_tier` on the updated row and rejects the statement if it
fails. -/
def updateUserTier (db : DB) (uid : Nat) (t : String) :
    Except String DB :=
  let upd := db.users.map (fun r =>
    if r.user_id = uid then { r with tier := t } else r)
  if upd.all (fun r => check_user_tier r) then
    .ok { db with users := upd }
  else .error "CHECK constraint failed: check_user_tier"

/-- Rolled-back form of `updateExperienceDates`. -/
def commitUpdateExperienceDates (db : DB) (eid : Nat) (s : Date)
    (e : Option Date) : DB :=
  match updateExperienceDates db eid s e with
  | .ok db1 => db1
  | .error _ => db

/-- Rolled-back form of `updateUserTier`. -/
def commitUpdateUserTier (db : DB) (uid : Nat) (t : String) : DB :=
  match updateUserTier db uid t with
  | .ok db1 => db1
  | .error _ => db

/-! ## Referential integrity -/

/-- Every child row has its declared parent: each `resume_project` points to
an existing `user`, each `experience` to an existing `resume_project`, each
`verification_request` to an existing `experience`, each `share_link` to an
existing `resume_project` and each `session` to an existing `user`. -/
def noOrphans (db : DB) : Prop :=
  (∀ p ∈ db.resume_projects,
      ∃ u ∈ db.users, u.user_id = p.user_id) ∧
  (∀ e ∈ db.experiences,
      ∃ p ∈ db.resume_projects, p.project_id = e.project_id) ∧
  (∀ v ∈ db.verification_requests,
      ∃ e ∈ db.experiences, e.experience_id = v.experience_id) ∧
  (∀ s ∈ db.share_links,
      ∃ p ∈ db.resume_projects, p.project_id = s.project_id) ∧
  (∀ s ∈ db.sessions,
      ∃ u ∈ db.users, u.user_id = s.user_id)

instance (db : DB) : Decidable (noOrphans db) := by
  unfold noOrphans; infer_instance

/-- `DELETE FROM user WHERE user_id = uid` with the declared
`ondelete='CASCADE'` actions: the user's `resume_project` and `session` rows
go with it, and transitively the `experience`, `verification_request` and
`share_link` rows that hang off the deleted projects. -/
def delete_user (db : DB) (uid : Nat) : DB :=
  let deadProjects :=
    (db.resume_projects.filter (fun p => p.user_id = uid)).map
      (fun p => p.project_id)
  let deadExperiences :=
    (db.experiences.filter
      (fun e => deadProjects.contains e.project_id)).map
      (fun e => e.experience_id)
  { users := db.users.filter (fun u => u.user_id ≠ uid)
    resume_projects := db.resume_projects.filter (fun p => p.user_id ≠ uid)
    experiences :=
      db.experiences.filter (fun e => ¬ deadProjects.contains e.project_id)
    verification_requests :=
      db.verification_requests.filter
        (fun v => ¬ deadExperiences.contains v.experience_id)
    share_links :=
      db.share_links.filter (fun s => ¬ deadProjects.contains s.project_id)
    sessions := db.sessions.filter (fun s => s.user_id ≠ uid) }

/-! ## Row construction with column defaults (models.py)

The SQLAlchemy constructor fills every column the caller omits with its
declared default when the row is flushed.  Each builder below takes the
caller-supplied columns and applies the declared defaults for the rest, with
`now` the flush-time `datetime.utcnow()`.  The primary key is a placeholder
reassigned on insert. -/

/-- A `user` row constructed without `tier` or `created_at`: `tier` defaults
to `'normal'` and `created_at` to `utcnow`. -/
def User.withDefaults (now : DateTime) (email username password_hash : String)
    (phone_number : Option String) : User :=
  { user_id := 0, email, username, password_hash, phone_number,
    tier := tierDefault, created_at := now }

/-- A `resume_project` row constructed without `template_style`,
`is_employed` or the timestamps: `template_style` defaults to `'classic'`,
`is_employed` to `False`, both timestamps to `utcnow`. -/
def ResumeProject.withDefaults (now : DateTime) (user_id : Nat)
    (project_name : String) : ResumeProject :=
  { project_id := 0, user_id, project_name,
    template_style := templateStyleDefault,
    phone_number := none, linkedin_url := none, github_url := none,
    personal_website := none, current_company := none,
    is_employed := false, education_details := none,
    created_at := now, updated_at := now }

/-- An `experience` row constructed without `verification_status` or the
timestamps: `verification_status` defaults to `'not_requested'`, both
timestamps to `utcnow`. -/
def Experience.withDefaults (now : DateTime) (project_id : Nat)
    (company_name position_title : String) (start_date : Date)
    (end_date : Option Date) (description : String) : Experience :=
  { experience_id := 0, project_id, company_name, position_title,
    start_date, end_date, description,
    verification_status := verificationStatusDefault,
    created_at := now, updated_at := now }

/-- A `verification_request` row constructed with an explicit `requested_at`
but without `status` or `expires_at`: `status` defaults to `'pending'` and
`expires_at` to the default lambda `datetime.utcnow() + timedelta(days=30)`,
evaluated at flush time — it does not read `requested_at`. -/
def VerificationRequest.withDefaultExpiry (now : DateTime)
    (experience_id : Nat)
    (verifier_name verifier_position verifier_email : String)
    (verification_token : String) (requested_at : DateTime) :
    VerificationRequest :=
  { request_id := 0, experience_id, verifier_name, verifier_position,
    verifier_email, verification_token, status := requestStatusDefault,
    verifier_comment := none, requested_at, responded_at := none,
    expires_at := now + days 30 }

/-- A `verification_request` row constructed with every defaultable column
omitted: `requested_at` defaults to `utcnow` and `expires_at` to
`utcnow + 30 days`, both evaluated at the same flush. -/
def VerificationRequest.withDefaults (now : DateTime) (experience_id : Nat)
    (verifier_name verifier_position verifier_email : String)
    (verification_token : String) : VerificationRequest :=
  VerificationRequest.withDefaultExpiry now experience_id verifier_name
    verifier_position verifier_email verification_token now

/-- A `share_link` row constructed without `access_type`, `view_count` or
`created_at`: they default to `'view'`, `0` and `utcnow`; the nullable
`expires_at` stays `NULL`. -/
def ShareLink.withDefaults (now : DateTime) (project_id : Nat)
    (share_token : String) (recipient_email : Option String) : ShareLink :=
  { share_id := 0, project_id, share_token, recipient_email,
    access_type := accessTypeDefault, email_subject := none,
    email_message := none, view_count := 0, created_at := now,
    expires_at := none }

/-- A `session` row constructed with an explicit `created_at` but without
`expires_at`: `expires_at` defaults to the lambda
`datetime.utcnow() + timedelta(days=7)`, evaluated at flush time — it does
not read `created_at`. -/
def Session.withDefaultExpiry (now : DateTime) (user_id : Nat)
    (token : String) (created_at : DateTime) : Session :=
  { session_id := 0, user_id, token, created_at,
    expires_at := now + days 7 }

/-- A `session` row constructed with both timestamps omitted: `created_at`
defaults to `utcnow` and `expires_at` to `utcnow + 7 days`, both evaluated
at the same flush. -/
def Session.withDefaults (now : DateTime) (user_id : Nat)
    (token : String) : Session :=
  Session.withDefaultExpiry now user_id token now

/-! ## setup_database.py

The schema-level state: each of the seven declared tables is either absent
(`none`) or present with its rows.  `Base.metadata.drop_all` drops each
declared table that exists; `Base.metadata.create_all` creates each declared
table that is missing, empty, and leaves existing tables alone
(`checkfirst`). -/

/-- Presence and contents of the seven declared tables. -/
structure SchemaState where
  user : Option (List User)
  resume_project : Option (List ResumeProject)
  experience : Option (List Experience)
  verification_request : Option (List VerificationRequest)
  share_link : Option (List ShareLink)
  session : Option (List Session)
  template : Option (List Template)
deriving Repr, DecidableEq

/-- `DROP TABLE IF EXISTS` for one declared table. -/
def dropTable {α : Type} (_ : Option (List α)) : Option (List α) := none

/-- `CREATE TABLE` with `checkfirst`: creates the table empty only when it
is missing. -/
def createTable {α : Type} (t : Option (List α)) : Option (List α) :=
  match t with
  | none => some []
  | some rows => some rows

/-- `Base.metadata.drop_all(engine)`. -/
def drop_all (s : SchemaState) : SchemaState :=
  { user := dropTable s.user
    resume_project := dropTable s.resume_project
    experience := dropTable s.experience
    verification_request := dropTable s.verification_request
    share_link := dropTable s.share_link
    session := dropTable s.session
    template := dropTable s.template }

/-- `Base.metadata.create_all(engine)`. -/
def create_all (s : SchemaState) : SchemaState :=
  { user := createTable s.user
    resume_project := createTable s.resume_project
    experience := createTable s.experience
    verification_request := createTable s.verification_request
    share_link := createTable s.share_link
    session := createTable s.session
    template := createTable s.template }

/-- `setup_database()` from `setup_database.py`: drop every declared table,
then recreate all of them. -/
def setup_database (s : SchemaState) : SchemaState :=
  create_all (drop_all s)

/-- The schema `setup_database` produces: all seven tables present and
empty. -/
def freshSchema : SchemaState :=
  { user := some [], resume_project := some [], experience := some [],
    verification_request := some [], share_link := some [],
    session := some [], template := some [] }

/-! ## populate_database.py — the sample rows

One definition per row constructed by the script, parameterised by the
flush-time `now` (`datetime.utcnow()`), the parent keys returned by the
earlier stages, and the generated token where one is used.  Columns the
script leaves out take their declared defaults (notably `updated_at := now`
on projects and experiences, and `template_style := 'classic'` on
`project1`). -/

def user1Row (now : DateTime) : User :=
  { user_id := 0
    email := "john.doe@email.com"
    username := "johndoe"
    password_hash := hash_password "password123"
    phone_number := some "+1-555-0101"
    tier := "premium"
    created_at := now - days 90 }

def user2Row (now : DateTime) : User :=
  { user_id := 0
    email := "jane.smith@email.com"
    username := "janesmith"
    password_hash := hash_password "password456"
    phone_number := some "+1-555-0102"
    tier := "normal"
    created_at := now - days 60 }

def user3Row (now : DateTime) : User :=
  { user_id := 0
    email := "alex.johnson@email.com"
    username := "alexj"
    password_hash := hash_password "password789"
    phone_number := some "+1-555-0103"
    tier := "normal"
    created_at := now - days 30 }

/-- `json.dumps` output for the education list of `project1`. -/
def education1 : String :=
  "[\x7b\"degree\": \"Bachelor of Science\", \"field\": \"Computer Science\", \"institution\": \"MIT\", \"graduation_year\": 2015, \"gpa\": 3.8\x7d, \x7b\"degree\": \"Master of Science\", \"field\": \"Software Engineering\", \"institution\": \"Stanford University\", \"graduation_year\": 2017, \"gpa\": 3.9\x7d]"

/-- `json.dumps` output for the education list of `project2`. -/
def education2 : String :=
  "[\x7b\"degree\": \"Bachelor of Science\", \"field\": \"Computer Science\", \"institution\": \"MIT\", \"graduation_year\": 2015, \"gpa\": 3.8\x7d]"

/-- `json.dumps` output for the education list of `project3`. -/
def education3 : String :=
  "[\x7b\"degree\": \"Bachelor of Arts\", \"field\": \"Marketing\", \"institution\": \"UCLA\", \"graduation_year\": 2016, \"gpa\": 3.7\x7d]"

/-- `json.dumps` output for the education list of `project4`. -/
def education4 : String :=
  "[\x7b\"degree\": \"Ph.D.\", \"field\": \"Statistics\", \"institution\": \"UC Berkeley\", \"graduation_year\": 2019, \"gpa\": 4.0\x7d]"

def project1Row (now : DateTime) (u1 : Nat) : ResumeProject :=
  { project_id := 0
    user_id := u1
    project_name := "Software Engineering Resume"
    template_style := templateStyleDefault
    phone_number := some "+1-555-0101"
    linkedin_url := some "https://linkedin.com/in/johndoe"
    github_url := some "https://github.com/johndoe"
    personal_website := some "https://johndoe.dev"
    current_company := some "Tech Corp"
    is_employed := true
    education_details := some education1
    created_at := now - days 80
    updated_at := now }

def project2Row (now : DateTime) (u1 : Nat) : ResumeProject :=
  { project_id := 0
    user_id := u1
    project_name := "Project Management Resume"
    template_style := "classic"
    phone_number := some "+1-555-0101"
    linkedin_url := some "https://linkedin.com/in/johndoe"
    github_url := none
    personal_website := none
    current_company := some "Tech Corp"
    is_employed := true
    education_details := some education2
    created_at := now - days 40
    updated_at := now }

def project3Row (now : DateTime) (u2 : Nat) : ResumeProject :=
  { project_id := 0
    user_id := u2
    project_name := "Marketing Professional Resume"
    template_style := "minimal"
    phone_number := some "+1-555-0102"
    linkedin_url := some "https://linkedin.com/in/janesmith"
    github_url := none
    personal_website := none
    current_company := none
    is_employed := false
    education_details := some education3
    created_at := now - days 50
    updated_at := now }

def project4Row (now : DateTime) (u3 : Nat) : ResumeProject :=
  { project_id := 0
    user_id := u3
    project_name := "Data Science Resume"
    template_style := "modern"
    phone_number := some "+1-555-0103"
    linkedin_url := some "https://linkedin.com/in/alexjohnson"
    github_url := some "https://github.com/alexj"
    personal_website := none
    current_company := some "Analytics Inc"
    is_employed := true
    education_details := some education4
    created_at := now - days 25
    updated_at := now }

def exp1Row (now : DateTime) (p1 : Nat) : Experience :=
  { experience_id := 0
    project_id := p1
    company_name := "Tech Corp"
    position_title := "Senior Software Engineer"
    start_date := pydate 2020 1 15
    end_date := none
    description := "Leading development of microservices architecture. Mentoring junior developers. Implementing CI/CD pipelines and improving code quality through comprehensive testing."
    verification_status := "verified"
    created_at := now - days 75
    updated_at := now }

def exp2Row (now : DateTime) (p1 : Nat) : Experience :=
  { experience_id := 0
    project_id := p1
    company_name := "StartupXYZ"
    position_title := "Software Engineer"
    start_date := pydate 2017 6 1
    end_date := some (pydate 2019 12 31)
    description := "Developed RESTful APIs using Python and Flask. Built responsive front-end interfaces with React. Collaborated with cross-functional teams to deliver features."
    verification_status := "verified"
    created_at := now - days 75
    updated_at := now }

def exp3Row (now : DateTime) (p1 : Nat) : Experience :=
  { experience_id := 0
    project_id := p1
    company_name := "InnovateLabs"
    position_title := "Junior Developer"
    start_date := pydate 2015 7 1
    end_date := some (pydate 2017 5 31)
    description := "Built internal tools using JavaScript and Node.js. Participated in agile development cycles. Fixed bugs and improved application performance."
    verification_status := "pending"
    created_at := now - days 75
    updated_at := now }

def exp4Row (now : DateTime) (p2 : Nat) : Experience :=
  { experience_id := 0
    project_id := p2
    company_name := "Tech Corp"
    position_title := "Technical Project Manager"
    start_date := pydate 2021 3 1
    end_date := none
    description := "Managing cross-functional teams of 15+ members. Overseeing product roadmap and sprint planning. Stakeholder communication and risk management."
    verification_status := "not_requested"
    created_at := now - days 35
    updated_at := now }

def exp5Row (now : DateTime) (p3 : Nat) : Experience :=
  { experience_id := 0
    project_id := p3
    company_name := "Brand Solutions Inc"
    position_title := "Senior Marketing Manager"
    start_date := pydate 2019 1 1
    end_date := some (pydate 2024 6 30)
    description := "Led marketing campaigns resulting in 40% increase in customer engagement. Managed budget of $500K. Coordinated with design and content teams."
    verification_status := "verified"
    created_at := now - days 45
    updated_at := now }

def exp6Row (now : DateTime) (p3 : Nat) : Experience :=
  { experience_id := 0
    project_id := p3
    company_name := "Digital Marketing Agency"
    position_title := "Marketing Coordinator"
    start_date := pydate 2016 8 1
    end_date := some (pydate 2018 12 31)
    description := "Coordinated social media campaigns across multiple platforms. Analyzed campaign metrics and prepared reports. Collaborated with clients on strategy."
    verification_status := "rejected"
    created_at := now - days 45
    updated_at := now }

def exp7Row (now : DateTime) (p4 : Nat) : Experience :=
  { experience_id := 0
    project_id := p4
    company_name := "Analytics Inc"
    position_title := "Lead Data Scientist"
    start_date := pydate 2022 1 15
    end_date := none
    description := "Building machine learning models for customer churn prediction. Leading a team of 5 data scientists. Presenting insights to C-level executives."
    verification_status := "verified"
    created_at := now - days 20
    updated_at := now }

def exp8Row (now : DateTime) (p4 : Nat) : Experience :=
  { experience_id := 0
    project_id := p4
    company_name := "Research Institute"
    position_title := "Research Scientist"
    start_date := pydate 2019 9 1
    end_date := some (pydate 2021 12 31)
    description := "Conducted statistical analysis on large datasets. Published 5 peer-reviewed papers. Developed novel algorithms for data processing."
    verification_status := "pending"
    created_at := now - days 20
    updated_at := now }

def vr1Row (now : DateTime) (e1 : Nat) (t : String) : VerificationRequest :=
  { request_id := 0
    experience_id := e1
    verifier_name := "Sarah Manager"
    verifier_position := "Engineering Director"
    verifier_email := "sarah.manager@techcorp.com"
    verification_token := t
    status := "verified"
    verifier_comment := some "John is an exceptional engineer. His technical skills and leadership have been invaluable to our team."
    requested_at := now - days 60
    responded_at := some (now - days 55)
    expires_at := now + days 30 }

def vr2Row (now : DateTime) (e2 : Nat) (t : String) : VerificationRequest :=
  { request_id := 0
    experience_id := e2
    verifier_name := "Mike Founder"
    verifier_position := "CEO"
    verifier_email := "mike@startupxyz.com"
    verification_token := t
    status := "verified"
    verifier_comment := some "John was a key member of our early engineering team. Highly recommend!"
    requested_at := now - days 70
    responded_at := some (now - days 65)
    expires_at := now + days 30 }

def vr3Row (now : DateTime) (e3 : Nat) (t : String) : VerificationRequest :=
  { request_id := 0
    experience_id := e3
    verifier_name := "Lisa Supervisor"
    verifier_position := "Senior Developer"
    verifier_email := "lisa@innovatelabs.com"
    verification_token := t
    status := "pending"
    verifier_comment := none
    requested_at := now - days 10
    responded_at := none
    expires_at := now + days 20 }

def vr4Row (now : DateTime) (e5 : Nat) (t : String) : VerificationRequest :=
  { request_id := 0
    experience_id := e5
    verifier_name := "Robert Director"
    verifier_position := "VP of Marketing"
    verifier_email := "robert@brandsolutions.com"
    verification_token := t
    status := "verified"
    verifier_comment := some "Jane consistently exceeded expectations. Her campaigns drove significant business growth."
    requested_at := now - days 40
    responded_at := some (now - days 35)
    expires_at := now + days 30 }

def vr5Row (now : DateTime) (e6 : Nat) (t : String) : VerificationRequest :=
  { request_id := 0
    experience_id := e6
    verifier_name := "Chris Manager"
    verifier_position := "Marketing Director"
    verifier_email := "chris@digitalagency.com"
    verification_token := t
    status := "rejected"
    verifier_comment := some "I do not recall working with Jane in this capacity during the stated time period."
    requested_at := now - days 42
    responded_at := some (now - days 38)
    expires_at := now + days 30 }

def vr6Row (now : DateTime) (e7 : Nat) (t : String) : VerificationRequest :=
  { request_id := 0
    experience_id := e7
    verifier_name := "Emily CTO"
    verifier_position := "Chief Technology Officer"
    verifier_email := "emily.cto@analyticsinc.com"
    verification_token := t
    status := "verified"
    verifier_comment := some "Alex is a brilliant data scientist. Their models have saved us millions in operational costs."
    requested_at := now - days 15
    responded_at := some (now - days 12)
    expires_at := now + days 30 }

def vr7Row (now : DateTime) (e8 : Nat) (t : String) : VerificationRequest :=
  { request_id := 0
    experience_id := e8
    verifier_name := "Dr. Patricia Research"
    verifier_position := "Principal Investigator"
    verifier_email := "patricia@researchinstitute.edu"
    verification_token := t
    status := "pending"
    verifier_comment := none
    requested_at := now - days 5
    responded_at := none
    expires_at := now + days 25 }

def vr8Row (now : DateTime) (e3 : Nat) (t : String) : VerificationRequest :=
  { request_id := 0
    experience_id := e3
    verifier_name := "Tom Colleague"
    verifier_position := "Developer"
    verifier_email := "tom@innovatelabs.com"
    verification_token := t
    status := "pending"
    verifier_comment := none
    requested_at := now - days 8
    responded_at := none
    expires_at := now + days 22 }

def share1Row (now : DateTime) (p1 : Nat) (t : String) : ShareLink :=
  { share_id := 0
    project_id := p1
    share_token := t
    recipient_email := some "recruiter@bigtech.com"
    access_type := "view"
    email_subject := some "My Software Engineering Resume"
    email_message := some "Hi! Please review my resume for the Senior Engineer position."
    view_count := 5
    created_at := now - days 30
    expires_at := some (now + days 60) }

def share2Row (now : DateTime) (p1 : Nat) (t : String) : ShareLink :=
  { share_id := 0
    project_id := p1
    share_token := t
    recipient_email := some "mentor@career.com"
    access_type := "edit"
    email_subject := some "Resume Review Request"
    email_message := some "Could you please review and suggest edits to my resume?"
    view_count := 2
    created_at := now - days 20
    expires_at := none }

def share3Row (now : DateTime) (p2 : Nat) (t : String) : ShareLink :=
  { share_id := 0
    project_id := p2
    share_token := t
    recipient_email := some "pm.hiring@company.com"
    access_type := "view"
    email_subject := some "Project Management Resume"
    email_message := some "Here is my PM-focused resume for the open position."
    view_count := 1
    created_at := now - days 10
    expires_at := some (now + days 30) }

def share4Row (now : DateTime) (p3 : Nat) (t : String) : ShareLink :=
  { share_id := 0
    project_id := p3
    share_token := t
    recipient_email := none
    access_type := "view"
    email_subject := none
    email_message := none
    view_count := 12
    created_at := now - days 45
    expires_at := none }

def share5Row (now : DateTime) (p4 : Nat) (t : String) : ShareLink :=
  { share_id := 0
    project_id := p4
    share_token := t
    recipient_email := some "data.recruiter@analytics.com"
    access_type := "view"
    email_subject := some "Data Science Resume - Alex Johnson"
    email_message := some "Please find my resume attached via this secure link."
    view_count := 3
    created_at := now - days 5
    expires_at := some (now + days 45) }

def session1Row (now : DateTime) (u1 : Nat) (t : String) : Session :=
  { session_id := 0
    user_id := u1
    token := t
    created_at := now - hours 2
    expires_at := now + days 7 }

def session2Row (now : DateTime) (u1 : Nat) (t : String) : Session :=
  { session_id := 0
    user_id := u1
    token := t
    created_at := now - days 1
    expires_at := now + days 6 }

def session3Row (now : DateTime) (u2 : Nat) (t : String) : Session :=
  { session_id := 0
    user_id := u2
    token := t
    created_at := now - hours 5
    expires_at := now + days 7 }

def session4Row (now : DateTime) (u3 : Nat) (t : String) : Session :=
  { session_id := 0
    user_id := u3
    token := t
    created_at := now - minutes 30
    expires_at := now + days 7 }

/-! ## populate_database.py — the staged run

The script opens one session and performs six `add_all` + `commit` pairs:
users, projects, experiences, verification requests, share links, sessions.
Each stage below is one such pair: all of its inserts succeed and the stage
commits, or one fails and the whole (uncommitted) stage is discarded.  The
`except` handler of the script calls `db_session.rollback()`, which can only
undo work since the **last** commit, and re-raises — so a failed run leaves
the database at the most recent stage boundary. -/

/-- The eight experience keys produced by stage 3, in construction order. -/
structure ExpIds where
  e1 : Nat
  e2 : Nat
  e3 : Nat
  e4 : Nat
  e5 : Nat
  e6 : Nat
  e7 : Nat
  e8 : Nat
deriving Repr, DecidableEq

/-- Stage 1: `add_all([user1, user2, user3]); commit()`. -/
def stage_users (now : DateTime) (db : DB) :
    Except String (DB × Nat × Nat × Nat) := do
  let (db1, u1) ← insertUser db (user1Row now)
  let (db2, u2) ← insertUser db1 (user2Row now)
  let (db3, u3) ← insertUser db2 (user3Row now)
  return (db3, u1, u2, u3)

/-- Stage 2: `add_all([project1, project2, project3, project4]); commit()`. -/
def stage_projects (now : DateTime) (db : DB) (u1 u2 u3 : Nat) :
    Except String (DB × Nat × Nat × Nat × Nat) := do
  let (db1, p1) ← insertResumeProject db (project1Row now u1)
  let (db2, p2) ← insertResumeProject db1 (project2Row now u1)
  let (db3, p3) ← insertResumeProject db2 (project3Row now u2)
  let (db4, p4) ← insertResumeProject db3 (project4Row now u3)
  return (db4, p1, p2, p3, p4)

/-- Stage 3: `add_all([exp1, ..., exp8]); commit()`. -/
def stage_experiences (now : DateTime) (db : DB) (p1 p2 p3 p4 : Nat) :
    Except String (DB × ExpIds) := do
  let (db1, e1) ← insertExperience db (exp1Row now p1)
  let (db2, e2) ← insertExperience db1 (exp2Row now p1)
  let (db3, e3) ← insertExperience db2 (exp3Row now p1)
  let (db4, e4) ← insertExperience db3 (exp4Row now p2)
  let (db5, e5) ← insertExperience db4 (exp5Row now p3)
  let (db6, e6) ← insertExperience db5 (exp6Row now p3)
  let (db7, e7) ← insertExperience db6 (exp7Row now p4)
  let (db8, e8) ← insertExperience db7 (exp8Row now p4)
  return (db8, ⟨e1, e2, e3, e4, e5, e6, e7, e8⟩)

/-- Stage 4: `add_all([vr1, ..., vr8]); commit()`; the eight
`generate_token()` calls consume `tok 0` through `tok 7`. -/
def stage_verification_requests (now : DateTime) (tok : Nat → String)
    (db : DB) (es : ExpIds) : Except String DB := do
  let (db1, _) ← insertVerificationRequest db (vr1Row now es.e1 (tok 0))
  let (db2, _) ← insertVerificationRequest db1 (vr2Row now es.e2 (tok 1))
  let (db3, _) ← insertVerificationRequest db2 (vr3Row now es.e3 (tok 2))
  let (db4, _) ← insertVerificationRequest db3 (vr4Row now es.e5 (tok 3))
  let (db5, _) ← insertVerificationRequest db4 (vr5Row now es.e6 (tok 4))
  let (db6, _) ← insertVerificationRequest db5 (vr6Row now es.e7 (tok 5))
  let (db7, _) ← insertVerificationRequest db6 (vr7Row now es.e8 (tok 6))
  let (db8, _) ← insertVerificationRequest db7 (vr8Row now es.e3 (tok 7))
  return db8

/-- Stage 5: `add_all([share1, ..., share5]); commit()`; consumes `tok 8`
through `tok 12`. -/
def stage_share_links (now : DateTime) (tok : Nat → String) (db : DB)
    (p1 p2 p3 p4 : Nat) : Except String DB := do
  let (db1, _) ← insertShareLink db (share1Row now p1 (tok 8))
  let (db2, _) ← insertShareLink db1 (share2Row now p1 (tok 9))
  let (db3, _) ← insertShareLink db2 (share3Row now p2 (tok 10))
  let (db4, _) ← insertShareLink db3 (share4Row now p3 (tok 11))
  let (db5, _) ← insertShareLink db4 (share5Row now p4 (tok 12))
  return db5

/-- Stage 6: `add_all([session1, ..., session4]); commit()`; consumes
`tok 13` through `tok 16`. -/
def stage_sessions (now : DateTime) (tok : Nat → String) (db : DB)
    (u1 u2 u3 : Nat) : Except String DB := do
  let (db1, _) ← insertSession db (session1Row now u1 (tok 13))
  let (db2, _) ← insertSession db1 (session2Row now u1 (tok 14))
  let (db3, _) ← insertSession db2 (session3Row now u2 (tok 15))
  let (db4, _) ← insertSession db3 (session4Row now u3 (tok 16))
  return db4

/-- Outcome of a run of `populate_database()`: either all six stages
committed, or an insert raised, the in-flight stage was rolled back and the
error re-raised, leaving the contents at the last commit. -/
inductive PopResult where
  | success (db : DB)
  | failure (committed : DB) (msg : String)
deriving Repr, DecidableEq

/-- `populate_database()` from `populate_database.py`, as a function of the
flush-time clock `now`, the token stream `tok` and the starting contents
`db0`. -/
def populate_database (now : DateTime) (tok : Nat → String) (db0 : DB) :
    PopResult :=
  match stage_users now db0 with
  | .error e => .failure db0 e
  | .ok (db1, u1, u2, u3) =>
    match stage_projects now db1 u1 u2 u3 with
    | .error e => .failure db1 e
    | .ok (db2, p1, p2, p3, p4) =>
      match stage_experiences now db2 p1 p2 p3 p4 with
      | .error e => .failure db2 e
      | .ok (db3, es) =>
        match stage_verification_requests now tok db3 es with
        | .error e => .failure db3 e
        | .ok db4 =>
          match stage_share_links now tok db4 p1 p2 p3 p4 with
          | .error e => .failure db4 e
          | .ok db5 =>
            match stage_sessions now tok db5 u1 u2 u3 with
            | .error e => .failure db5 e
            | .ok db6 => .success db6

/-- The contents at the boundary after `k` successfully committed stages of
a run of `populate_database` (`none` when the run does not reach that
boundary). -/
def committedAfter (now : DateTime) (tok : Nat → String) (db0 : DB)
    (k : Nat) : Option DB :=
  if k = 0 then some db0 else
  match stage_users now db0 with
  | .error _ => none
  | .ok (db1, u1, u2, u3) =>
    if k = 1 then some db1 else
    match stage_projects now db1 u1 u2 u3 with
    | .error _ => none
    | .ok (db2, p1, p2, p3, p4) =>
      if k = 2 then some db2 else
      match stage_experiences now db2 p1 p2 p3 p4 with
      | .error _ => none
      | .ok (db3, es) =>
        if k = 3 then some db3 else
        match stage_verification_requests now tok db3 es with
        | .error _ => none
        | .ok db4 =>
          if k = 4 then some db4 else
          match stage_share_links now tok db4 p1 p2 p3 p4 with
          | .error _ => none
          | .ok db5 =>
            if k = 5 then some db5 else
            match stage_sessions now tok db5 u1 u2 u3 with
            | .error _ => none
            | .ok db6 => if k = 6 then some db6 else none

/-- The distinct token stream used to instantiate the sample runs; it plays
the role of the 17 fresh values returned by `secrets.token_urlsafe(32)`. -/
def tok0 : Nat → String := fun i => "sample-token-" ++ Nat.repr i

/-- A second distinct stream, for a re-run (the script would draw fresh
random tokens on every invocation). -/
def tok1 : Nat → String := fun i => "rerun-token-" ++ Nat.repr i

/-- The committed contents after a run: the full contents on success, the
contents as of the last commit on failure. -/
def PopResult.contents : PopResult → DB
  | .success db => db
  | .failure db _ => db

/-- Whether the run raised. -/
def PopResult.isSuccess : PopResult → Bool
  | .success _ => true
  | .failure _ _ => false

/-- The re-raised error of a failed run. -/
def PopResult.message : PopResult → Option String
  | .success _ => none
  | .failure _ msg => some msg

/-- The contents produced by a successful sample run on the fresh, empty
database. -/
def popDB : DB :=
  (populate_database 0 tok0 emptyDB).contents

/-- The row stored for `r` by a successful insert into
`verification_request` (`none` when the insert is rejected). -/
def insertedRequestRow (db : DB) (r : VerificationRequest) :
    Option VerificationRequest :=
  match insertVerificationRequest db r with
  | .ok (db1, _) => db1.verification_requests.getLast?
  | .error _ => none

/-- The row stored for `r` by a successful insert into `session` (`none`
when the insert is rejected). -/
def insertedSessionRow (db : DB) (r : Session) : Option Session :=
  match insertSession db r with
  | .ok (db1, _) => db1.sessions.getLast?
  | .error _ => none

/-! ## Concrete scenario for a mid-run population failure

Contents present before a run of `populate_database`: one user with its
project, experience and a pending verification request whose token happens
to equal the first value the run draws from the token stream (modelling a
collision with `generate_token()`).  The run then commits its first three
stages and fails inside stage 4 on the token uniqueness constraint. -/

def priorUser : User :=
  { user_id := 1
    email := "prior.user@email.com"
    username := "prioruser"
    password_hash := hash_password "oldpassword"
    phone_number := none
    tier := "normal"
    created_at := 0 - days 200 }

def priorProject : ResumeProject :=
  { project_id := 1
    user_id := 1
    project_name := "Prior Resume"
    template_style := "classic"
    phone_number := none
    linkedin_url := none
    github_url := none
    personal_website := none
    current_company := none
    is_employed := false
    education_details := none
    created_at := 0 - days 199
    updated_at := 0 - days 199 }

def priorExperience : Experience :=
  { experience_id := 1
    project_id := 1
    company_name := "Prior Company"
    position_title := "Prior Engineer"
    start_date := pydate 2010 1 1
    end_date := some (pydate 2012 1 1)
    description := "Earlier work kept in the database before the failed run."
    verification_status := "pending"
    created_at := 0 - days 199
    updated_at := 0 - days 199 }

def priorRequest : VerificationRequest :=
  { request_id := 1
    experience_id := 1
    verifier_name := "Prior Verifier"
    verifier_position := "Prior Manager"
    verifier_email := "prior.verifier@email.com"
    verification_token := tok0 0
    status := "pending"
    verifier_comment := none
    requested_at := 0 - days 198
    responded_at := none
    expires_at := 0 - days 168 }

/-- The starting contents of the failing run. -/
def collidingDB : DB :=
  { users := [priorUser]
    resume_projects := [priorProject]
    experiences := [priorExperience]
    verification_requests := [priorRequest]
    share_links := []
    sessions := [] }

/-! # Theorems -/

/-- C5: running `populate_database` against the freshly set-up empty
database succeeds and leaves exactly 3 `user` rows, 4 `resume_project`
rows, 8 `experience` rows, 8 `verification_request` rows, 5 `share_link`
rows and 4 `session` rows; since every insert requires its parent row to be
present already, the final `noOrphans` conjunct witnesses that each parent
was inserted before every child that references it.  The token stream
`tok0` plays the role of the 17 distinct random tokens drawn by
`generate_token()`. -/
theorem populate_fresh_database_counts :
    (populate_database 0 tok0 emptyDB).isSuccess = true ∧
    popDB.users.length = 3 ∧ popDB.resume_projects.length = 4 ∧
    popDB.experiences.length = 8 ∧ popDB.verification_requests.length = 8 ∧
    popDB.share_links.length = 5 ∧ popDB.sessions.length = 4 ∧
    noOrphans popDB := by
  decide

/-- C4: running `populate_database` a second time, against the contents the
first run left behind, fails on a uniqueness constraint (the fixed sample
email `john.doe@email.com` already exists) and leaves the contents exactly
as they were — in particular no row count doubles.  The re-run draws fresh
tokens (`tok1`). -/
theorem repopulate_fails_on_uniqueness :
    populate_database 0 tok1 popDB =
      .failure popDB "UNIQUE constraint failed: user.email" := by
  decide

/-- C3 counterexample: the sample dataset does **not** cover all four
request statuses — no row of the populated `verification_request` table has
status `'expired'`, so the claimed existence of an `'expired'` row is
false. -/
theorem no_expired_request_in_sample :
    ¬ ∃ v ∈ popDB.verification_requests, v.status = "expired" := by
  decide

/-- C3 amended: the sample verification requests cover exactly three of the
four status values — `'pending'`, `'verified'` and `'rejected'` each occur,
`'expired'` never does — and `responded_at` is non-null exactly for the
rows whose status is not `'pending'`. -/
theorem sample_request_status_coverage :
    (∃ v ∈ popDB.verification_requests, v.status = "pending") ∧
    (∃ v ∈ popDB.verification_requests, v.status = "verified") ∧
    (∃ v ∈ popDB.verification_requests, v.status = "rejected") ∧
    (∀ v ∈ popDB.verification_requests, v.status ≠ "expired") ∧
    (∀ v ∈ popDB.verification_requests,
      (v.responded_at ≠ none ↔ v.status ≠ "pending")) := by
  decide

/-- C1 counterexample: a failed run of `populate_database` can leave an
intermediate subset of the batch committed.  Starting from `collidingDB`
(whose pre-existing verification request holds the token the run will draw
for `vr1`), the run commits users, projects and experiences, then fails on
the token uniqueness constraint in stage 4: afterwards the batch's user
`johndoe` (absent beforehand) is committed, while the batch's share links
are absent — the contents are neither fully populated nor free of rows
inserted by that run. -/
theorem populate_failure_leaves_partial_batch :
    (populate_database 0 tok0 collidingDB).isSuccess = false ∧
    (populate_database 0 tok0 collidingDB).message =
      some "UNIQUE constraint failed: verification_request.verification_token" ∧
    (populate_database 0 tok0 collidingDB).contents.users.any
      (fun u => u.username = "johndoe") = true ∧
    collidingDB.users.any (fun u => u.username = "johndoe") = false ∧
    (populate_database 0 tok0 collidingDB).contents.share_links.length = 0 ∧
    (populate_database 0 tok0 collidingDB).contents.verification_requests.length = 1 ∧
    (populate_database 0 tok0 collidingDB).contents.experiences.length = 9 := by
  decide

/-- C1 amended: rollback in `populate_database` is per stage, not
batch-wide.  The script commits after each of its six stages, and the
`except` handler's `rollback()` discards only the stage in flight, so a run
always leaves the contents at a stage boundary: on success the boundary
after all six stages, on failure the boundary after the `k < 6` stages that
had already committed — not necessarily the untouched or the fully
populated contents. -/
theorem populate_failure_commits_stage_boundary (now : DateTime)
    (tok : Nat → String) (db0 : DB) :
    match populate_database now tok db0 with
    | .success db => committedAfter now tok db0 6 = some db
    | .failure db _ => ∃ k, k < 6 ∧ committedAfter now tok db0 k = some db := by
  unfold populate_database committedAfter
  cases h1 : stage_users now db0 with
  | error e =>
    dsimp only
    exact ⟨0, by omega, rfl⟩
  | ok r1 =>
    obtain ⟨db1, u1, u2, u3⟩ := r1
    dsimp only
    cases h2 : stage_projects now db1 u1 u2 u3 with
    | error e =>
      dsimp only
      exact ⟨1, by omega, rfl⟩
    | ok r2 =>
      obtain ⟨db2, p1, p2, p3, p4⟩ := r2
      dsimp only
      cases h3 : stage_experiences now db2 p1 p2 p3 p4 with
      | error e =>
        dsimp only
        exact ⟨2, by omega, rfl⟩
      | ok r3 =>
        obtain ⟨db3, es⟩ := r3
        dsimp only
        cases h4 : stage_verification_requests now tok db3 es with
        | error e =>
          dsimp only
          exact ⟨3, by omega, rfl⟩
        | ok db4 =>
          dsimp only
          cases h5 : stage_share_links now tok db4 p1 p2 p3 p4 with
          | error e =>
            dsimp only
            exact ⟨4, by omega, rfl⟩
          | ok db5 =>
            dsimp only
            cases h6 : stage_sessions now tok db5 u1 u2 u3 with
            | error e =>
              dsimp only
              exact ⟨5, by omega, rfl⟩
            | ok db6 => rfl

/-- C2 counterexample: a `verification_request` row inserted without an
explicit `expires_at` but **with** an explicitly supplied `requested_at`
does not get `expires_at = requested_at + 30 days`: the column default is
the lambda `datetime.utcnow() + timedelta(days=30)`, which reads the clock,
not `requested_at`.  Inserting at `now = 0` with
`requested_at = now - 60 days` stores `expires_at = 30 days`, while
`requested_at + 30 days = -30 days`. -/
theorem vr_default_expiry_ignores_requested_at :
    (insertedRequestRow popDB
        (VerificationRequest.withDefaultExpiry 0 1 "Pat Verifier" "Manager"
          "pat.verifier@example.com" "fresh-vr-token" (0 - days 60))).any
      (fun v => v.expires_at != v.requested_at + days 30) = true := by
  decide

/-- C7: `setup_database` is idempotent — from any starting state over the
declared schema it drops every declared table and recreates all seven
empty, so one run yields the empty seven-table schema and a second run
yields exactly the same state. -/
theorem setup_database_idempotent (s : SchemaState) :
    setup_database s = freshSchema ∧
    setup_database (setup_database s) = setup_database s :=
  ⟨rfl, rfl⟩

/-- C10: every enumerated column's declared default is a member of its
check-constraint set — `user.tier` defaults to `'normal'`,
`resume_project.template_style` to `'classic'`,
`experience.verification_status` to `'not_requested'`,
`verification_request.status` to `'pending'` and `share_link.access_type`
to `'view'` — so a row constructed without supplying those columns passes
the corresponding check constraint. -/
theorem enum_defaults_satisfy_checks (now : DateTime)
    (em un pw vn vp ve t pn cn pt ds : String) (ph re : Option String)
    (uid pid eid : Nat) (sd : Date) (ed : Option Date) :
    (User.withDefaults now em un pw ph).tier = "normal" ∧
    check_user_tier (User.withDefaults now em un pw ph) = true ∧
    (ResumeProject.withDefaults now uid pn).template_style = "classic" ∧
    check_template_style (ResumeProject.withDefaults now uid pn) = true ∧
    (Experience.withDefaults now pid cn pt sd ed ds).verification_status =
      "not_requested" ∧
    check_verification_status (Experience.withDefaults now pid cn pt sd ed ds) =
      true ∧
    (VerificationRequest.withDefaults now eid vn vp ve t).status = "pending" ∧
    check_request_status (VerificationRequest.withDefaults now eid vn vp ve t) =
      true ∧
    (ShareLink.withDefaults now pid t re).access_type = "view" ∧
    check_access_type (ShareLink.withDefaults now pid t re) = true :=
  ⟨rfl, rfl, rfl, rfl, rfl, rfl, rfl, rfl, rfl, rfl⟩

/-- C2 amended: a `verification_request` row inserted without an explicit
`expires_at` gets `expires_at` equal to the insert-time clock plus 30 days;
when `requested_at` is also left to its own default (the same clock), the
stored row therefore satisfies `expires_at = requested_at + 30 days` — but
not in general when `requested_at` is supplied explicitly (see the
counterexample).  A `session` row inserted without explicit `expires_at`
likewise satisfies `expires_at = created_at + 7 days` when `created_at` is
defaulted. -/
theorem default_expiry_offsets (now : DateTime) (db : DB) (eid uid : Nat)
    (vn vp ve tv ts : String) (v : VerificationRequest) (srow : Session)
    (hv : insertedRequestRow db
      (VerificationRequest.withDefaults now eid vn vp ve tv) = some v)
    (hs : insertedSessionRow db (Session.withDefaults now uid ts) = some srow) :
    v.requested_at = now ∧ v.expires_at = v.requested_at + days 30 ∧
    srow.created_at = now ∧ srow.expires_at = srow.created_at + days 7 := by
  unfold insertedRequestRow at hv
  unfold insertedSessionRow at hs
  have hv2 : v.requested_at = now ∧ v.expires_at = v.requested_at + days 30 := by
    cases hins : insertVerificationRequest db
        (VerificationRequest.withDefaults now eid vn vp ve tv) with
    | error e => rw [hins] at hv; cases hv
    | ok x =>
      rw [hins] at hv
      obtain ⟨db1, rid⟩ := x
      dsimp only at hv
      unfold insertVerificationRequest at hins
      split at hins
      · split at hins
        · simp at hins
        · split at hins
          · injection hins with h1
            injection h1 with hdb hrid
            rw [← hdb] at hv
            dsimp only at hv
            rw [List.getLast?_concat] at hv
            injection hv with hrow
            rw [← hrow]
            exact ⟨rfl, rfl⟩
          · simp at hins
      · simp at hins
  have hs2 : srow.created_at = now ∧
      srow.expires_at = srow.created_at + days 7 := by
    cases hins : insertSession db (Session.withDefaults now uid ts) with
    | error e => rw [hins] at hs; cases hs
    | ok x =>
      rw [hins] at hs
      obtain ⟨db1, sid⟩ := x
      dsimp only at hs
      unfold insertSession at hins
      split at hins
      · simp at hins
      · split at hins
        · injection hins with h1
          injection h1 with hdb hsid
          rw [← hdb] at hs
          dsimp only at hs
          rw [List.getLast?_concat] at hs
          injection hs with hrow
          rw [← hrow]
          exact ⟨rfl, rfl⟩
        · simp at hins
  exact ⟨hv2.1, hv2.2, hs2.1, hs2.2⟩

/-- The row stored when a fully-defaulted verification request for
experience 1 is inserted into the populated contents at `now = 0`. -/
def sampleDefaultRequest : VerificationRequest :=
  { request_id := 9
    experience_id := 1
    verifier_name := "Pat Verifier"
    verifier_position := "Manager"
    verifier_email := "pat.verifier@example.com"
    verification_token := "fresh-default-token"
    status := "pending"
    verifier_comment := none
    requested_at := 0
    responded_at := none
    expires_at := days 30 }

/-- The row stored when a fully-defaulted session for user 1 is inserted
into the populated contents at `now = 0`. -/
def sampleDefaultSession : Session :=
  { session_id := 5
    user_id := 1
    token := "fresh-default-session"
    created_at := 0
    expires_at := days 7 }

/-- Witness for `default_expiry_offsets` at a concrete insert into the
populated contents. -/
theorem default_expiry_offsets_witness :
    sampleDefaultRequest.requested_at = 0 ∧
    sampleDefaultRequest.expires_at =
      sampleDefaultRequest.requested_at + days 30 ∧
    sampleDefaultSession.created_at = 0 ∧
    sampleDefaultSession.expires_at =
      sampleDefaultSession.created_at + days 7 :=
  default_expiry_offsets 0 popDB 1 1 "Pat Verifier" "Manager"
    "pat.verifier@example.com" "fresh-default-token" "fresh-default-session"
    sampleDefaultRequest sampleDefaultSession (by decide) (by decide)

/-- C6: deleting a `user` row cascades along the declared
`ondelete='CASCADE'` foreign keys: afterwards no `resume_project` or
`session` row references the deleted user, the `experience`,
`verification_request` and `share_link` rows descended from the deleted
projects are gone with them, and — provided the contents had referential
integrity to begin with — no row in any table references a missing parent. -/
theorem delete_user_cascades (db : DB) (uid : Nat) (h : noOrphans db) :
    noOrphans (delete_user db uid) ∧
    (∀ u ∈ (delete_user db uid).users, u.user_id ≠ uid) ∧
    (∀ p ∈ (delete_user db uid).resume_projects, p.user_id ≠ uid) ∧
    (∀ s ∈ (delete_user db uid).sessions, s.user_id ≠ uid) := by
  obtain ⟨hproj, hexp, hreq, hshare, hsess⟩ := h
  unfold delete_user noOrphans
  dsimp only
  refine ⟨⟨?_, ?_, ?_, ?_, ?_⟩, ?_, ?_, ?_⟩
  · intro p hp
    rw [List.mem_filter, decide_eq_true_eq] at hp
    obtain ⟨hpdb, hpne⟩ := hp
    obtain ⟨u, hu, huid⟩ := hproj p hpdb
    refine ⟨u, List.mem_filter.mpr ⟨hu, ?_⟩, huid⟩
    rw [decide_eq_true_eq, huid]
    exact hpne
  · intro e he
    rw [List.mem_filter, decide_eq_true_eq] at he
    obtain ⟨hedb, hene⟩ := he
    obtain ⟨p0, hp0, hpid⟩ := hexp e hedb
    refine ⟨p0, List.mem_filter.mpr ⟨hp0, ?_⟩, hpid⟩
    rw [decide_eq_true_eq]
    intro hbad
    apply hene
    rw [← hpid]
    exact List.elem_iff.mpr (List.mem_map.mpr
      ⟨p0, List.mem_filter.mpr ⟨hp0, by rw [decide_eq_true_eq]; exact hbad⟩,
        rfl⟩)
  · intro v hv
    rw [List.mem_filter, decide_eq_true_eq] at hv
    obtain ⟨hvdb, hvne⟩ := hv
    obtain ⟨e0, he0, heid⟩ := hreq v hvdb
    refine ⟨e0, List.mem_filter.mpr ⟨he0, ?_⟩, heid⟩
    rw [decide_eq_true_eq]
    intro hbad
    apply hvne
    rw [← heid]
    exact List.elem_iff.mpr (List.mem_map.mpr
      ⟨e0, List.mem_filter.mpr ⟨he0, hbad⟩, rfl⟩)
  · intro sl hsl
    rw [List.mem_filter, decide_eq_true_eq] at hsl
    obtain ⟨hsldb, hslne⟩ := hsl
    obtain ⟨p0, hp0, hpid⟩ := hshare sl hsldb
    refine ⟨p0, List.mem_filter.mpr ⟨hp0, ?_⟩, hpid⟩
    rw [decide_eq_true_eq]
    intro hbad
    apply hslne
    rw [← hpid]
    exact List.elem_iff.mpr (List.mem_map.mpr
      ⟨p0, List.mem_filter.mpr ⟨hp0, by rw [decide_eq_true_eq]; exact hbad⟩,
        rfl⟩)
  · intro sr hsr
    rw [List.mem_filter, decide_eq_true_eq] at hsr
    obtain ⟨hsrdb, hsrne⟩ := hsr
    obtain ⟨u, hu, huid⟩ := hsess sr hsrdb
    refine ⟨u, List.mem_filter.mpr ⟨hu, ?_⟩, huid⟩
    rw [decide_eq_true_eq, huid]
    exact hsrne
  · intro u hu
    rw [List.mem_filter, decide_eq_true_eq] at hu
    exact hu.2
  · intro p hp
    rw [List.mem_filter, decide_eq_true_eq] at hp
    exact hp.2
  · intro sr hsr
    rw [List.mem_filter, decide_eq_true_eq] at hsr
    exact hsr.2

/-- Witness for `delete_user_cascades`: deleting user 1 (the premium user,
two projects, five experiences, six verification requests, three share
links, two sessions) from the populated contents. -/
theorem delete_user_cascades_witness :
    noOrphans (delete_user popDB 1) ∧
    (∀ u ∈ (delete_user popDB 1).users, u.user_id ≠ 1) ∧
    (∀ p ∈ (delete_user popDB 1).resume_projects, p.user_id ≠ 1) ∧
    (∀ s ∈ (delete_user popDB 1).sessions, s.user_id ≠ 1) :=
  delete_user_cascades popDB 1 (by decide)

/-- C8: the `check_date_range` constraint is enforced — an insert of an
`experience` row whose `end_date` precedes its `start_date` is rejected and
the contents stay unchanged, an UPDATE setting such a date pair on an
existing row is likewise rejected with the contents unchanged, and every
checked insert preserves the table-wide invariant that `end_date`, when
present, is at least `start_date`. -/
theorem check_date_range_enforced (db : DB) (r : Experience) (eid : Nat)
    (s d : Date) (hs : r.start_date = s) (he : r.end_date = some d)
    (hlt : d < s) (hex : ∃ e ∈ db.experiences, e.experience_id = eid) :
    (∀ x, insertExperience db r ≠ .ok x) ∧
    commitInsertExperience db r = db ∧
    (∀ db1, updateExperienceDates db eid s (some d) ≠ .ok db1) ∧
    commitUpdateExperienceDates db eid s (some d) = db ∧
    (∀ db2 r2 x2, (∀ e ∈ db2.experiences, check_date_range e = true) →
      insertExperience db2 r2 = .ok x2 →
      ∀ e ∈ x2.1.experiences, check_date_range e = true) := by
  have hnle : ¬ (s ≤ d) := Nat.not_le.mpr hlt
  have hcd : check_date_range r = false := by
    unfold check_date_range
    rw [he, hs]
    exact decide_eq_false hnle
  have herr : ∃ msg, insertExperience db r = .error msg := by
    unfold insertExperience
    rw [hcd]
    split
    · exact ⟨_, rfl⟩
    · exact ⟨_, rfl⟩
  obtain ⟨msg, hmsg⟩ := herr
  have hallE : (db.experiences.map (fun x =>
      if x.experience_id = eid then
        { x with start_date := s, end_date := some d } else x)).all
      (fun x => check_date_range x) = false := by
    obtain ⟨e0, he0, heid⟩ := hex
    cases hb : (db.experiences.map (fun x =>
        if x.experience_id = eid then
          { x with start_date := s, end_date := some d } else x)).all
        (fun x => check_date_range x) with
    | false => rfl
    | true =>
      have hmm : ({ e0 with start_date := s, end_date := some d } :
          Experience) ∈ db.experiences.map (fun x =>
          if x.experience_id = eid then
            { x with start_date := s, end_date := some d } else x) :=
        List.mem_map.mpr ⟨e0, he0, by rw [if_pos heid]⟩
      have hck := List.all_eq_true.mp hb _ hmm
      rw [show check_date_range { e0 with start_date := s, end_date := some d }
          = decide (s ≤ d) from rfl] at hck
      exact absurd (of_decide_eq_true hck) hnle
  refine ⟨?_, ?_, ?_, ?_, ?_⟩
  · intro x
    simp [hmsg]
  · simp [commitInsertExperience, hmsg]
  · intro db1
    simp [updateExperienceDates, hallE]
  · simp [commitUpdateExperienceDates, updateExperienceDates, hallE]
  · intro db2 r2 x2 hinv h
    unfold insertExperience at h
    split at h
    · split at h
      · split at h
        · injection h with h1
          rw [← h1]
          intro e he2
          rcases List.mem_append.mp he2 with hold | hnew
          · exact hinv e hold
          · rw [List.mem_singleton.mp hnew]
            rename_i hcd2 _
            exact hcd2
        · exact absurd h (by simp)
      · exact absurd h (by simp)
    · exact absurd h (by simp)

/-- The rejected row of the spec example: `start_date` 2020-01-15 with
`end_date` 2019-12-31. -/
def badDateExperience : Experience :=
  { experience_id := 0
    project_id := 1
    company_name := "Backdated Corp"
    position_title := "Time Traveller"
    start_date := pydate 2020 1 15
    end_date := some (pydate 2019 12 31)
    description := "End date earlier than start date."
    verification_status := "not_requested"
    created_at := 0
    updated_at := 0 }

/-- Witness for `check_date_range_enforced` at the spec example
(2020-01-15 / 2019-12-31) against the populated contents. -/
theorem check_date_range_enforced_witness :
    (∀ x, insertExperience popDB badDateExperience ≠ .ok x) ∧
    commitInsertExperience popDB badDateExperience = popDB ∧
    (∀ db1, updateExperienceDates popDB 1 (pydate 2020 1 15)
      (some (pydate 2019 12 31)) ≠ .ok db1) ∧
    commitUpdateExperienceDates popDB 1 (pydate 2020 1 15)
      (some (pydate 2019 12 31)) = popDB ∧
    (∀ db2 r2 x2, (∀ e ∈ db2.experiences, check_date_range e = true) →
      insertExperience db2 r2 = .ok x2 →
      ∀ e ∈ x2.1.experiences, check_date_range e = true) :=
  check_date_range_enforced popDB badDateExperience 1 (pydate 2020 1 15)
    (pydate 2019 12 31) rfl rfl (by decide) (by decide)

/-- C9: the `check_user_tier` constraint is enforced — an insert of a
`user` row whose tier is outside `{'normal', 'premium'}` is rejected with
the contents unchanged, an UPDATE setting such a tier on an existing row is
likewise rejected with the contents unchanged, and every checked insert
preserves the table-wide invariant that each row's tier lies in the
enumerated set. -/
theorem check_user_tier_enforced (db : DB) (r : User) (uid : Nat)
    (t : String) (hr : r.tier = t) (ht : t ∉ tierValues)
    (hu : ∃ u ∈ db.users, u.user_id = uid) :
    (∀ x, insertUser db r ≠ .ok x) ∧
    commitInsertUser db r = db ∧
    (∀ db1, updateUserTier db uid t ≠ .ok db1) ∧
    commitUpdateUserTier db uid t = db ∧
    (∀ db2 r2 x2, (∀ u ∈ db2.users, u.tier ∈ tierValues) →
      insertUser db2 r2 = .ok x2 → ∀ u ∈ x2.1.users, u.tier ∈ tierValues) := by
  have hmem : r.tier ∉ tierValues := hr ▸ ht
  have hcheck : check_user_tier r = false := by
    cases hb : check_user_tier r with
    | false => rfl
    | true => exact absurd (List.elem_iff.mp hb) hmem
  have hall : (db.users.map (fun x =>
      if x.user_id = uid then { x with tier := t } else x)).all
      (fun x => check_user_tier x) = false := by
    obtain ⟨u0, hu0, huid⟩ := hu
    cases hb : (db.users.map (fun x =>
        if x.user_id = uid then { x with tier := t } else x)).all
        (fun x => check_user_tier x) with
    | false => rfl
    | true =>
      have hmm : ({ u0 with tier := t } : User) ∈ db.users.map (fun x =>
          if x.user_id = uid then { x with tier := t } else x) :=
        List.mem_map.mpr ⟨u0, hu0, by rw [if_pos huid]⟩
      have := List.all_eq_true.mp hb _ hmm
      exact absurd (List.elem_iff.mp this) ht
  refine ⟨?_, ?_, ?_, ?_, ?_⟩
  · intro x
    simp [insertUser, hcheck]
  · simp [commitInsertUser, insertUser, hcheck]
  · intro db1
    simp [updateUserTier, hall]
  · simp [commitUpdateUserTier, updateUserTier, hall]
  · intro db2 r2 x2 hinv h
    unfold insertUser at h
    split at h
    · split at h
      · exact absurd h (by simp)
      · split at h
        · exact absurd h (by simp)
        · injection h with h1
          rw [← h1]
          intro u hu2
          rcases List.mem_append.mp hu2 with hold | hnew
          · exact hinv u hold
          · rw [List.mem_singleton.mp hnew]
            rename_i hc _ _
            exact List.elem_iff.mp hc
    · exact absurd h (by simp)

/-- A row with a tier outside the enumerated set. -/
def badTierUser : User :=
  { user_id := 0
    email := "bad.tier@email.com"
    username := "badtier"
    password_hash := hash_password "password000"
    phone_number := none
    tier := "gold"
    created_at := 0 }

/-- Witness for `check_user_tier_enforced` at tier `'gold'` against the
populated contents. -/
theorem check_user_tier_enforced_witness :
    (∀ x, insertUser popDB badTierUser ≠ .ok x) ∧
    commitInsertUser popDB badTierUser = popDB ∧
    (∀ db1, updateUserTier popDB 1 "gold" ≠ .ok db1) ∧
    commitUpdateUserTier popDB 1 "gold" = popDB ∧
    (∀ db2 r2 x2, (∀ u ∈ db2.users, u.tier ∈ tierValues) →
      insertUser db2 r2 = .ok x2 → ∀ u ∈ x2.1.users, u.tier ∈ tierValues) :=
  check_user_tier_enforced popDB badTierUser 1 "gold" rfl (by decide)
    (by decide)

end RefOnRecord
